import Mathlib

/-!
Verification development for the QuantFlow detection-and-confirmation core.

The Python source (src/trading.py, src/indicator.py) is shallowly embedded:
candles are records of rational prices, DataFrames become lists of candles
(in order), the process-wide tap-state dictionary becomes an explicit
association list threaded through each call, and Python exceptions become
`Except` values.  Float literals such as `1.001` are embedded as the exact
rationals they denote in the source text.
-/

namespace QuantFlow

/-- Direction of a Fair Value Gap, the strings 'Bullish' / 'Bearish' of the source. -/
inductive FvgType where
  | Bullish
  | Bearish
deriving DecidableEq, Repr

/-- One OHLCV candle row of a DataFrame (volume is never read by the embedded code,
so it is omitted).  `open_` stands for the column 'open'. -/
structure Candle where
  timestamp : ℤ
  open_ : ℚ
  high : ℚ
  low : ℚ
  close : ℚ
deriving DecidableEq, Repr

/-- A detected Fair Value Gap, the dict built by `TradingEngine.detect_fvg`. -/
structure FVG where
  type : FvgType
  index : ℕ
  timestamp : ℤ
  fvg_low : ℚ
  fvg_high : ℚ
  gap_size : ℚ
  candle_1 : Candle
  candle_2 : Candle
  candle_3 : Candle
deriving DecidableEq, Repr

/-- `fvg_type_filter is None or fvg_type_filter == t`. -/
def matchesFilter (fvg_type_filter : Option FvgType) (t : FvgType) : Bool :=
  match fvg_type_filter with
  | none => true
  | some x => x == t

/-- Body of one iteration of the detection loop of `TradingEngine.detect_fvg`
(src/trading.py lines 36-67): at index `i` of the completed-candle list, emit the
bullish gap, else the bearish gap (the source uses `elif`), subject to the filter. -/
def fvgsAt (df_completed : List Candle) (fvg_type_filter : Option FvgType) (i : ℕ) :
    List FVG :=
  match df_completed[i-2]?, df_completed[i-1]?, df_completed[i]? with
  | some c1, some c2, some c3 =>
    if c1.high < c3.low then
      if matchesFilter fvg_type_filter .Bullish then
        [⟨.Bullish, i, c3.timestamp, c1.high, c3.low, c3.low - c1.high, c1, c2, c3⟩]
      else []
    else if c1.low > c3.high then
      if matchesFilter fvg_type_filter .Bearish then
        [⟨.Bearish, i, c3.timestamp, c3.high, c1.low, c1.low - c3.high, c1, c2, c3⟩]
      else []
    else []
  | _, _, _ => []

/-- `TradingEngine.detect_fvg` (src/trading.py lines 11-69): guard on fewer than 4
candles, drop the live last candle, guard on fewer than 3 completed candles, then
scan indices `max 2 start_idx, ..., len-1` in ascending order. -/
def detect_fvg (df : List Candle) (fvg_type_filter : Option FvgType) (start_idx : ℕ) :
    List FVG :=
  if df.length < 4 then []
  else
    let df_completed := df.dropLast
    if df_completed.length < 3 then []
    else
      let start := max 2 start_idx
      (List.range' start (df_completed.length - start)).flatMap
        (fvgsAt df_completed fvg_type_filter)

/-- A user price level (the fields of the level dicts that the engine reads). -/
structure PriceLevel where
  level_id : ℕ
  price : ℚ
  enabled : Bool
  triggered : Bool
deriving DecidableEq, Repr

/-- The per-level value stored in the process-wide `self.triggered_levels` dict
when a tap is recorded (src/trading.py lines 135-140). -/
structure TapInfo where
  tap_index : ℕ
  tap_timestamp : ℤ
  tap_price : ℚ
  expected_fvg_type : Option FvgType
deriving DecidableEq, Repr

/-- The `triggered_info` dict returned per tapped level by `check_price_tap`
(src/trading.py lines 123-132). -/
structure TappedInfo where
  level : PriceLevel
  candle_index : ℕ
  timestamp : ℤ
  candle_open : ℚ
  candle_close : ℚ
  candle_high : ℚ
  candle_low : ℚ
  expected_fvg_type : Option FvgType
deriving DecidableEq, Repr

/-- The mutable state of a `TradingEngine` instance: the `self.triggered_levels`
dictionary, keyed by level id (keys are unique because an existing entry blocks
re-insertion). -/
structure EngineState where
  triggered_levels : List (ℕ × TapInfo)
deriving DecidableEq, Repr

/-- `TradingEngine.get_current_price` (src/trading.py lines 71-76): the close of
the second-to-last candle, `None` on fewer than 2 candles. -/
def get_current_price (df : List Candle) : Option ℚ :=
  if df.isEmpty ∨ df.length < 2 then none
  else (df[df.length - 2]?).map Candle.close

/-- `TradingEngine.determine_fvg_type` (src/trading.py lines 78-92); the float
literals 1.001 and 0.999 are the exact rationals of the source text. -/
def determine_fvg_type (price_level current_price : ℚ) : Option FvgType :=
  if price_level > current_price * (1001/1000) then some .Bearish
  else if price_level < current_price * (999/1000) then some .Bullish
  else none

/-- The inner candle scan of `check_price_tap` (src/trading.py lines 121-141):
the first completed candle, with its positional index, whose [low, high] range
contains the level price. -/
def findTap (df_completed : List Candle) (price : ℚ) : Option (ℕ × Candle) :=
  df_completed.enum.find? (fun p => decide (p.2.low ≤ price ∧ price ≤ p.2.high))

/-- One level's step of the loop of `check_price_tap` (src/trading.py
lines 107-141), threading the accumulated result list and the engine state. -/
def checkPriceTapStep (df_completed : List Candle) (current_price : ℚ)
    (acc : List TappedInfo × EngineState) (level : PriceLevel) :
    List TappedInfo × EngineState :=
  if !level.enabled || level.triggered then acc
  else if (acc.2.triggered_levels.lookup level.level_id).isSome then acc
  else
    let expected_fvg_type := determine_fvg_type level.price current_price
    match findTap df_completed level.price with
    | none => acc
    | some (idx, row) =>
      (acc.1 ++
        [⟨level, idx, row.timestamp, row.open_, row.close, row.high, row.low,
          expected_fvg_type⟩],
       ⟨acc.2.triggered_levels ++
        [(level.level_id, ⟨idx, row.timestamp, level.price, expected_fvg_type⟩)]⟩)

/-- `TradingEngine.check_price_tap` (src/trading.py lines 94-143).  Note the
source keeps the whole series, live candle included, when it has a single row:
`df.iloc[:-1] if len(df) > 1 else df`. -/
def check_price_tap (st : EngineState) (df : List Candle)
    (price_levels : List PriceLevel) (current_price : ℚ) :
    List TappedInfo × EngineState :=
  if df.isEmpty ∨ price_levels.isEmpty then ([], st)
  else
    let df_completed := if df.length > 1 then df.dropLast else df
    price_levels.foldl (checkPriceTapStep df_completed current_price) ([], st)

/-- `TradingEngine.check_fvg_after_tap` (src/trading.py lines 145-169): keep the
candles strictly after the tap, require at least 4 of them, detect gaps with the
expected-type filter and start index 2, and return the first one. -/
def check_fvg_after_tap (fvg_df : List Candle) (tap_timestamp : ℤ)
    (expected_fvg_type : Option FvgType) : Option FVG :=
  if fvg_df.isEmpty then none
  else
    let post_tap_df := fvg_df.filter (fun c => decide (tap_timestamp < c.timestamp))
    if post_tap_df.length < 4 then none
    else
      let fvg_list := detect_fvg post_tap_df expected_fvg_type 2
      if fvg_list.isEmpty then none
      else fvg_list.head?

/-- The string written into a signal's `expected_type` field:
`expected_fvg_type or 'Any'`. -/
def fvgTypeName : Option FvgType → String
  | none => "Any"
  | some .Bullish => "Bullish"
  | some .Bearish => "Bearish"

/-- The `signal_data` dict of `check_fvg_signals` (src/trading.py lines 205-219
and 248-262); the database-generated `signal_id` is not modelled. -/
structure Signal where
  symbol : String
  price_timeframe : String
  fvg_timeframe : String
  price_level : ℚ
  trigger_price : ℚ
  tap_timestamp : ℤ
  fvg_type : FvgType
  fvg_timestamp : ℤ
  fvg_low : ℚ
  fvg_high : ℚ
  gap_size : ℚ
  expected_type : String
  notified : Bool
deriving DecidableEq, Repr

/-- Phase (b) step of `check_fvg_signals` (src/trading.py lines 234-275): a level
whose in-memory `triggered` flag is false and whose id has a stored tap is
re-checked for a confirming gap; on success a signal is appended and the tap
entry deleted. -/
def fvgSignalsPrevStep (fvg_df : List Candle)
    (symbol price_timeframe fvg_timeframe : String) (webhook_url : Option String)
    (acc : List Signal × EngineState) (level : PriceLevel) :
    List Signal × EngineState :=
  let (sigs, s) := acc
  if level.triggered then acc
  else
    match s.triggered_levels.lookup level.level_id with
    | none => acc
    | some tap_info =>
      match check_fvg_after_tap fvg_df tap_info.tap_timestamp
          tap_info.expected_fvg_type with
      | none => acc
      | some fvg =>
        (sigs ++
          [⟨symbol, price_timeframe, fvg_timeframe, level.price, tap_info.tap_price,
            tap_info.tap_timestamp, fvg.type, fvg.timestamp, fvg.fvg_low,
            fvg.fvg_high, fvg.gap_size, fvgTypeName tap_info.expected_fvg_type,
            webhook_url.isSome⟩],
         ⟨s.triggered_levels.filter (fun p => p.1 != level.level_id)⟩)

/-- `TradingEngine.check_fvg_signals` (src/trading.py lines 171-277).  Database
and notification calls are pure in this embedding: `save_signal` and
`update_price_level_triggered` write only to the external store (in particular
they do not change the in-memory `price_levels` dicts), and the webhook decides
the `notified` flag.  Phase (a) handles levels newly tapped in this call,
phase (b) levels holding a stored tap. -/
def check_fvg_signals (st : EngineState) (price_df fvg_df : List Candle)
    (price_levels : List PriceLevel)
    (symbol price_timeframe fvg_timeframe : String) (webhook_url : Option String) :
    List Signal × EngineState :=
  if price_df.isEmpty ∨ fvg_df.isEmpty ∨ price_levels.isEmpty then ([], st)
  else
    match get_current_price price_df with
    | none => ([], st)
    | some current_price =>
      let (newly_tapped, st1) := check_price_tap st price_df price_levels current_price
      let signalsA := newly_tapped.filterMap (fun tapped =>
        (check_fvg_after_tap fvg_df tapped.timestamp tapped.expected_fvg_type).map
          (fun fvg =>
            ⟨symbol, price_timeframe, fvg_timeframe, tapped.level.price,
             tapped.candle_close, tapped.timestamp, fvg.type, fvg.timestamp,
             fvg.fvg_low, fvg.fvg_high, fvg.gap_size,
             fvgTypeName tapped.expected_fvg_type, webhook_url.isSome⟩))
      let (signalsB, st2) := price_levels.foldl
        (fvgSignalsPrevStep fvg_df symbol price_timeframe fvg_timeframe webhook_url)
        ([], st1)
      (signalsA ++ signalsB, st2)

/-- Indicator output: either a pandas Series (single line) or a DataFrame
(named columns; pandas keeps every column at the same row count). -/
inductive IndicatorData where
  | series (vals : List ℚ)
  | frame (cols : List (String × List ℚ))
deriving DecidableEq, Repr

/-- The row count, `len(indicator_data)`: a frame's length is its number of rows
(all columns agree in pandas; the first column stands for it here). -/
def IndicatorData.rows : IndicatorData → ℕ
  | .series vals => vals.length
  | .frame cols => ((cols.head?).map (fun c => c.2.length)).getD 0

/-- pandas `.empty`: true iff some axis has length 0. -/
def IndicatorData.isEmpty : IndicatorData → Bool
  | .series vals => vals.isEmpty
  | .frame cols => cols.isEmpty || decide (IndicatorData.rows (.frame cols) = 0)

/-- The `alert_config` dict: `none` in a field models an absent key, read through
`.get` with the source's defaults. -/
structure AlertConfig where
  type : Option String
  condition : Option String
  value : Option ℚ
  line : Option String
  compare_with : Option String
deriving DecidableEq, Repr

/-- The details dicts returned alongside the fired flag by
`check_alert_conditions`. -/
inductive AlertDetails where
  | valueDetails (current threshold : ℚ)
  | crossDetails (current previous threshold : ℚ)
  | compareDetails (main_current compare_current : ℚ)
deriving DecidableEq, Repr

/-- `indicator_data[name]`: pandas column selection, a KeyError on a missing
column. -/
def colGet (cols : List (String × List ℚ)) (name : String) :
    Except String (List ℚ) :=
  match cols.lookup name with
  | some v => Except.ok v
  | none => Except.error "KeyError"

/-- `.iloc[-1]`: the last element, an IndexError when empty. -/
def ilocLast (vals : List ℚ) : Except String ℚ :=
  match vals.getLast? with
  | some x => Except.ok x
  | none => Except.error "IndexError"

/-- `vals.iloc[-2] if rows > 1 else None` (src/indicator.py lines 224, 228, 251). -/
def ilocPrevOf (rows : ℕ) (vals : List ℚ) : Option ℚ :=
  if rows > 1 then vals[vals.length - 2]? else none

/-- The main-line selection of `check_alert_conditions` for a DataFrame
(src/indicator.py lines 220-224): `alert_config.get('line',
list(indicator_data.columns)[0])` then column access, which raises on a column
name absent from the frame. -/
def mainLineVals (cols : List (String × List ℚ)) (alert_config : AlertConfig) :
    Except String (List ℚ) :=
  let main_line := alert_config.line.getD (((cols.head?).map Prod.fst).getD "")
  colGet cols main_line

/-- The compare branch of `check_alert_conditions` (src/indicator.py
lines 247-264), reached with `alert_type == 'compare'` on a DataFrame. -/
def compareBranch (cols : List (String × List ℚ)) (alert_config : AlertConfig)
    (condition : String) (rows : ℕ) (current : ℚ) (previous : Option ℚ) :
    Except String (Bool × Option AlertDetails) :=
  match alert_config.compare_with with
  | none => Except.ok (false, none)
  | some compare_line =>
    if compare_line ≠ "" ∧ (cols.lookup compare_line).isSome then do
      let cmp ← colGet cols compare_line
      let compare_current ← ilocLast cmp
      let compare_previous := ilocPrevOf rows cmp
      if condition = "crosses_above" ∧ compare_previous.isSome then
        Except.ok (decide (previous.getD 0 ≤ compare_previous.getD 0 ∧
            current > compare_current),
          some (.compareDetails current compare_current))
      else if condition = "crosses_below" ∧ compare_previous.isSome then
        Except.ok (decide (previous.getD 0 ≥ compare_previous.getD 0 ∧
            current < compare_current),
          some (.compareDetails current compare_current))
      else Except.ok (false, none)
    else Except.ok (false, none)

/-- `IndicatorEngine.check_alert_conditions` (src/indicator.py lines 201-266).
Python exceptions (KeyError / IndexError) are `Except.error` values; the normal
return `(crossed, details)` is `Except.ok`. -/
def check_alert_conditions (indicator_data : Option IndicatorData)
    (alert_config : AlertConfig) : Except String (Bool × Option AlertDetails) :=
  match indicator_data with
  | none => Except.ok (false, none)
  | some dat =>
    if dat.isEmpty then Except.ok (false, none)
    else
      let alert_type := alert_config.type.getD "value"
      let condition := alert_config.condition.getD "above"
      let threshold := alert_config.value.getD 0
      do
        let main_vals ← match dat with
          | .frame cols => mainLineVals cols alert_config
          | .series vals => Except.ok vals
        let current ← ilocLast main_vals
        let previous := ilocPrevOf dat.rows main_vals
        if alert_type = "value" then
          if condition = "above" then
            Except.ok (decide (current > threshold),
              some (.valueDetails current threshold))
          else if condition = "below" then
            Except.ok (decide (current < threshold),
              some (.valueDetails current threshold))
          else if condition = "equals" then
            Except.ok (decide (|current - threshold| < 1/100),
              some (.valueDetails current threshold))
          else Except.ok (false, none)
        else if alert_type = "crossover" ∧ previous.isSome then
          if condition = "crosses_above" then
            Except.ok (decide (previous.getD 0 ≤ threshold ∧ threshold < current),
              some (.crossDetails current (previous.getD 0) threshold))
          else if condition = "crosses_below" then
            Except.ok (decide (previous.getD 0 ≥ threshold ∧ threshold > current),
              some (.crossDetails current (previous.getD 0) threshold))
          else Except.ok (false, none)
        else if alert_type = "compare" then
          match dat with
          | .frame cols =>
            compareBranch cols alert_config condition dat.rows current previous
          | .series _ => Except.ok (false, none)
        else Except.ok (false, none)

/-- The result of running the user's source text under `exec` with the
restricted namespace, abstracted as an oracle: the code either raises while
being executed, finishes without defining `calculate`, or defines a `calculate`
function whose call on the buffer and parameters returns a value or raises.
The wrapper logic around it is `IndicatorEngine.execute_indicator`
(src/indicator.py lines 150-199); `exec` itself (the Python interpreter) is the
only abstracted part. -/
inductive ExecOutcome where
  | raises (msg : String)
  | noCalculate
  | defines
      (calculate : List Candle → List (String × ℚ) → Except String IndicatorData)

/-- `IndicatorEngine.execute_indicator` (src/indicator.py lines 150-199): run the
code, call `calculate` when defined, raise on a missing definition, and wrap any
exception message in a single `Indicator execution error: ...` failure. -/
def execute_indicator (outcome : ExecOutcome) (df : List Candle)
    (params : List (String × ℚ)) : Except String IndicatorData :=
  match outcome with
  | .raises msg => Except.error ("Indicator execution error: " ++ msg)
  | .noCalculate =>
      Except.error
        "Indicator execution error: Code must define a \x27calculate\x27 function"
  | .defines calculate =>
    match calculate df params with
    | Except.ok r => Except.ok r
    | Except.error msg => Except.error ("Indicator execution error: " ++ msg)

/-- A candle series is well-formed when every candle's low is at most its high
(OHLC data always satisfies this). -/
def WellFormedSeries (df : List Candle) : Prop :=
  ∀ c ∈ df, c.low ≤ c.high

instance : DecidablePred WellFormedSeries := fun df =>
  inferInstanceAs (Decidable (∀ c ∈ df, c.low ≤ c.high))

/-- Written from the spec's words (§4.1, claim C3), to be compared with
`fvgsAt`: at index `i`, a Bullish FVG iff candle[i-2].high < candle[i].low and a
Bearish FVG iff candle[i-2].low > candle[i].high, each independently, with the
direction filter suppressing exactly the non-matching case. -/
def specFvgsAt (df_completed : List Candle) (fvg_type_filter : Option FvgType)
    (i : ℕ) : List FVG :=
  match df_completed[i-2]?, df_completed[i-1]?, df_completed[i]? with
  | some c1, some c2, some c3 =>
    (if c1.high < c3.low ∧ matchesFilter fvg_type_filter .Bullish then
      [⟨.Bullish, i, c3.timestamp, c1.high, c3.low, c3.low - c1.high, c1, c2, c3⟩]
     else []) ++
    (if c1.low > c3.high ∧ matchesFilter fvg_type_filter .Bearish then
      [⟨.Bearish, i, c3.timestamp, c3.high, c1.low, c1.low - c3.high, c1, c2, c3⟩]
     else [])
  | _, _, _ => []

/-- Written from the spec's words (§4.1, claim C3), to be compared with
`detect_fvg`: drop the last (provisional) candle and report, for every index i
from max(2, startOffset) to the end of the remaining series in ascending order,
the gaps of `specFvgsAt`. -/
def spec_detect_fvg (df : List Candle) (fvg_type_filter : Option FvgType)
    (start_idx : ℕ) : List FVG :=
  let df_completed := df.dropLast
  let start := max 2 start_idx
  (List.range' start (df_completed.length - start)).flatMap
    (specFvgsAt df_completed fvg_type_filter)

/-- An alert evaluation fired: the call returned normally with `True` as the
first component. -/
def firesAlert (r : Except String (Bool × Option AlertDetails)) : Prop :=
  ∃ d, r = Except.ok (true, d)

/-- An alert configuration whose type is not one of value/crossover/compare, or
whose condition is not a recognized condition for its type (claim C10), after
applying the source's `.get` defaults. -/
def unrecognizedConfig (alert_config : AlertConfig) : Prop :=
  (alert_config.type.getD "value" ≠ "value" ∧
    alert_config.type.getD "value" ≠ "crossover" ∧
    alert_config.type.getD "value" ≠ "compare") ∨
  (alert_config.type.getD "value" = "value" ∧
    alert_config.condition.getD "above" ≠ "above" ∧
    alert_config.condition.getD "above" ≠ "below" ∧
    alert_config.condition.getD "above" ≠ "equals") ∨
  (alert_config.type.getD "value" = "crossover" ∧
    alert_config.condition.getD "above" ≠ "crosses_above" ∧
    alert_config.condition.getD "above" ≠ "crosses_below") ∨
  (alert_config.type.getD "value" = "compare" ∧
    alert_config.condition.getD "above" ≠ "crosses_above" ∧
    alert_config.condition.getD "above" ≠ "crosses_below")

/-- Precondition under which `check_alert_conditions` cannot raise before its
type dispatch: for a DataFrame, every column has the frame's row count (pandas
guarantees this) and the selected main line names an existing column.  A plain
Series needs nothing. -/
def safeFrameAccess (dat : IndicatorData) (alert_config : AlertConfig) : Prop :=
  match dat with
  | .series _ => True
  | .frame cols =>
    (∀ p ∈ cols, p.2.length = IndicatorData.rows (.frame cols)) ∧
    (cols.lookup
      (alert_config.line.getD (((cols.head?).map Prod.fst).getD ""))).isSome

/-! ## Helper lemmas -/

theorem fvgsAt_eq_specFvgsAt (df_completed : List Candle)
    (fvg_type_filter : Option FvgType) (i : ℕ)
    (wf : WellFormedSeries df_completed) :
    fvgsAt df_completed fvg_type_filter i = specFvgsAt df_completed fvg_type_filter i := by
  unfold fvgsAt specFvgsAt
  cases h1 : df_completed[i-2]? with
  | none => rfl
  | some c1 =>
    cases h2 : df_completed[i-1]? with
    | none => rfl
    | some c2 =>
      cases h3 : df_completed[i]? with
      | none => rfl
      | some c3 =>
        have w1 : c1.low ≤ c1.high := wf c1 (List.getElem?_mem h1)
        have w3 : c3.low ≤ c3.high := wf c3 (List.getElem?_mem h3)
        by_cases hb : c1.high < c3.low
        · have hnb : ¬ c1.low > c3.high := by linarith
          simp [hb, hnb]
        · by_cases hc : c1.low > c3.high
          · simp [hb, hc]
          · simp [hb, hc]

theorem length_dropLast_le_two {df : List Candle} (h : df.length < 4) :
    df.dropLast.length ≤ 2 := by
  rw [List.length_dropLast]
  omega

/-- The claim-facing statement of C3 is `detect_fvg = spec_detect_fvg`; this is
its engine, stated on the completed series. -/
theorem detect_fvg_eq_spec_aux (df : List Candle) (fvg_type_filter : Option FvgType)
    (start_idx : ℕ) (wf : WellFormedSeries df) :
    detect_fvg df fvg_type_filter start_idx =
      spec_detect_fvg df fvg_type_filter start_idx := by
  have wf' : WellFormedSeries df.dropLast := fun c hc => wf c (List.dropLast_subset df hc)
  have hcong :
      (List.range' (max 2 start_idx) (df.dropLast.length - max 2 start_idx)).flatMap
          (fvgsAt df.dropLast fvg_type_filter) =
        (List.range' (max 2 start_idx) (df.dropLast.length - max 2 start_idx)).flatMap
          (specFvgsAt df.dropLast fvg_type_filter) := by
    have : fvgsAt df.dropLast fvg_type_filter = specFvgsAt df.dropLast fvg_type_filter := by
      funext i
      exact fvgsAt_eq_specFvgsAt _ _ _ wf'
    rw [this]
  unfold detect_fvg spec_detect_fvg
  by_cases h4 : df.length < 4
  · have hlen : df.dropLast.length - max 2 start_idx = 0 := by
      have := length_dropLast_le_two h4
      omega
    simp only [if_pos h4]
    show [] =
      (List.range' (max 2 start_idx) (df.dropLast.length - max 2 start_idx)).flatMap
        (specFvgsAt df.dropLast fvg_type_filter)
    rw [hlen]
    simp
  · have h3 : ¬ df.dropLast.length < 3 := by
      rw [List.length_dropLast]
      omega
    simp only [if_neg h4, if_neg h3]
    exact hcong

theorem mem_fvgsAt_index {df_completed : List Candle}
    {fvg_type_filter : Option FvgType} {i : ℕ} {x : FVG}
    (hx : x ∈ fvgsAt df_completed fvg_type_filter i) : x.index = i := by
  unfold fvgsAt at hx
  split at hx
  · split at hx
    · split at hx
      · simp at hx
        subst hx
        rfl
      · simp at hx
    · split at hx
      · split at hx
        · simp at hx
          subst hx
          rfl
        · simp at hx
      · simp at hx
  · simp at hx

theorem mem_fvgsAt_gap {df_completed : List Candle}
    {fvg_type_filter : Option FvgType} {i : ℕ} {x : FVG}
    (hx : x ∈ fvgsAt df_completed fvg_type_filter i) :
    x.fvg_low < x.fvg_high ∧ x.gap_size = x.fvg_high - x.fvg_low := by
  unfold fvgsAt at hx
  split at hx
  case _ c1 c2 c3 _ _ _ =>
    split at hx
    case isTrue hb =>
      split at hx
      · simp at hx
        subst hx
        exact ⟨hb, rfl⟩
      · simp at hx
    case isFalse =>
      split at hx
      case isTrue hb =>
        split at hx
        · simp at hx
          subst hx
          exact ⟨hb, rfl⟩
        · simp at hx
      case isFalse => simp at hx
  · simp at hx

theorem pairwise_flatMap_index (F : ℕ → List FVG)
    (hF : ∀ i, ∀ x ∈ F i, x.index = i) :
    ∀ l : List ℕ, l.Pairwise (· < ·) →
      (l.flatMap F).Pairwise (fun a b => a.index ≤ b.index) := by
  intro l
  induction l with
  | nil => intro _; simp
  | cons a t ih =>
    intro hl
    rw [List.flatMap_cons, List.pairwise_append]
    refine ⟨?_, ih (List.Pairwise.of_cons hl), ?_⟩
    · apply List.pairwise_of_forall_mem_list
      intro x hx y hy
      rw [hF a x hx, hF a y hy]
    · intro x hx y hy
      obtain ⟨b, hb, hyb⟩ := List.mem_flatMap.1 hy
      have hab : a < b := (List.pairwise_cons.1 hl).1 b hb
      rw [hF a x hx, hF b y hyb]
      omega

theorem detect_fvg_pairwise_index (df : List Candle)
    (fvg_type_filter : Option FvgType) (start_idx : ℕ) :
    (detect_fvg df fvg_type_filter start_idx).Pairwise
      (fun a b => a.index ≤ b.index) := by
  unfold detect_fvg
  split
  · simp
  · show List.Pairwise (fun a b => a.index ≤ b.index)
      (if df.dropLast.length < 3 then []
       else (List.range' (max 2 start_idx) (df.dropLast.length - max 2 start_idx)).flatMap
         (fvgsAt df.dropLast fvg_type_filter))
    split
    · simp
    · exact pairwise_flatMap_index _ (fun i x hx => mem_fvgsAt_index hx) _
        (List.pairwise_lt_range' _ _)

theorem head?_pairwise_min {l : List FVG} {x : FVG}
    (hp : l.Pairwise (fun a b => a.index ≤ b.index)) (hx : l.head? = some x) :
    ∀ g ∈ l, x.index ≤ g.index := by
  cases l with
  | nil => simp at hx
  | cons a t =>
    simp only [List.head?_cons, Option.some.injEq] at hx
    subst hx
    intro g hg
    rcases List.mem_cons.1 hg with h | h
    · subst h
      exact le_refl _
    · exact (List.pairwise_cons.1 hp).1 g h

theorem mem_detect_fvg {df : List Candle} {fvg_type_filter : Option FvgType}
    {start_idx : ℕ} {x : FVG} (hx : x ∈ detect_fvg df fvg_type_filter start_idx) :
    ∃ i, x ∈ fvgsAt df.dropLast fvg_type_filter i := by
  unfold detect_fvg at hx
  split at hx
  · simp at hx
  · rw [show (let df_completed := df.dropLast;
        if df_completed.length < 3 then []
        else
          let start := max 2 start_idx
          (List.range' start (df_completed.length - start)).flatMap
            (fvgsAt df_completed fvg_type_filter)) =
      (if df.dropLast.length < 3 then []
       else (List.range' (max 2 start_idx) (df.dropLast.length - max 2 start_idx)).flatMap
         (fvgsAt df.dropLast fvg_type_filter)) from rfl] at hx
    split at hx
    · simp at hx
    · obtain ⟨i, _, hi⟩ := List.mem_flatMap.1 hx
      exact ⟨i, hi⟩

/-! ## Claim theorems -/

/-- C3: for every well-formed candle series, `detect_fvg` drops the last
(provisional) candle and reports, for every index i from max(2, startOffset) to
the end of the remaining series, a Bullish FVG iff candle[i-2].high <
candle[i].low (gapLow = candle[i-2].high, gapHigh = candle[i].low) and a Bearish
FVG iff candle[i-2].low > candle[i].high (gapLow = candle[i].high, gapHigh =
candle[i-2].low), the direction filter suppressing exactly the non-matching
case, in ascending index order: it coincides with the detector transcribed from
the spec's words. -/
theorem detect_fvg_matches_spec (df : List Candle)
    (fvg_type_filter : Option FvgType) (start_idx : ℕ)
    (wf : WellFormedSeries df) :
    detect_fvg df fvg_type_filter start_idx =
      spec_detect_fvg df fvg_type_filter start_idx :=
  detect_fvg_eq_spec_aux df fvg_type_filter start_idx wf

/-- Witness for C3: the spec's own scenario (§8), candles
[{h:100,l:98}, {h:99,l:95}, {h:105,l:103}, live], evaluated concretely. -/
theorem detect_fvg_matches_spec_witness :
    WellFormedSeries
        [⟨0, 99, 100, 98, 99⟩, ⟨1, 97, 99, 95, 96⟩, ⟨2, 104, 105, 103, 104⟩,
         ⟨3, 104, 105, 103, 104⟩] ∧
      detect_fvg
          [⟨0, 99, 100, 98, 99⟩, ⟨1, 97, 99, 95, 96⟩, ⟨2, 104, 105, 103, 104⟩,
           ⟨3, 104, 105, 103, 104⟩] none 0 =
        spec_detect_fvg
          [⟨0, 99, 100, 98, 99⟩, ⟨1, 97, 99, 95, 96⟩, ⟨2, 104, 105, 103, 104⟩,
           ⟨3, 104, 105, 103, 104⟩] none 0 ∧
      (detect_fvg
          [⟨0, 99, 100, 98, 99⟩, ⟨1, 97, 99, 95, 96⟩, ⟨2, 104, 105, 103, 104⟩,
           ⟨3, 104, 105, 103, 104⟩] none 0).map
          (fun g => (g.type, g.fvg_low, g.fvg_high, g.gap_size)) =
        [(FvgType.Bullish, 100, 103, 3)] :=
  ⟨by decide,
   detect_fvg_matches_spec _ none 0 (by decide),
   by with_unfolding_all decide⟩

/-- C7: every FVG returned by `detect_fvg` satisfies gapHigh > gapLow and
gapSize = gapHigh − gapLow, for Bullish and Bearish gaps alike. -/
theorem detect_fvg_gap_invariant (df : List Candle)
    (fvg_type_filter : Option FvgType) (start_idx : ℕ) (fvg : FVG)
    (hmem : fvg ∈ detect_fvg df fvg_type_filter start_idx) :
    fvg.fvg_low < fvg.fvg_high ∧ fvg.gap_size = fvg.fvg_high - fvg.fvg_low := by
  obtain ⟨i, hi⟩ := mem_detect_fvg hmem
  exact mem_fvgsAt_gap hi

/-- Witness for C7: the gap of the concrete bullish scenario satisfies the
invariant. -/
theorem detect_fvg_gap_invariant_witness :
    ∃ fvg, fvg ∈ detect_fvg
        [⟨0, 99, 100, 98, 99⟩, ⟨1, 97, 99, 95, 96⟩, ⟨2, 104, 105, 103, 104⟩,
         ⟨3, 104, 105, 103, 104⟩] none 0 ∧
      fvg.fvg_low < fvg.fvg_high ∧ fvg.gap_size = fvg.fvg_high - fvg.fvg_low :=
  ⟨⟨.Bullish, 2, 2, 100, 103, 3, ⟨0, 99, 100, 98, 99⟩, ⟨1, 97, 99, 95, 96⟩,
      ⟨2, 104, 105, 103, 104⟩⟩,
   by with_unfolding_all decide,
   detect_fvg_gap_invariant
     [⟨0, 99, 100, 98, 99⟩, ⟨1, 97, 99, 95, 96⟩, ⟨2, 104, 105, 103, 104⟩,
      ⟨3, 104, 105, 103, 104⟩] none 0
     ⟨.Bullish, 2, 2, 100, 103, 3, ⟨0, 99, 100, 98, 99⟩, ⟨1, 97, 99, 95, 96⟩,
      ⟨2, 104, 105, 103, 104⟩⟩ (by with_unfolding_all decide)⟩

/-- C8: the output of `detect_fvg` depends only on the candles before the last
one — replacing the final (provisional) candle of a series never changes the
result. -/
theorem detect_fvg_ignores_last_candle (xs : List Candle) (c c' : Candle)
    (fvg_type_filter : Option FvgType) (start_idx : ℕ) :
    detect_fvg (xs ++ [c]) fvg_type_filter start_idx =
      detect_fvg (xs ++ [c']) fvg_type_filter start_idx := by
  unfold detect_fvg
  simp only [List.dropLast_concat, List.length_append, List.length_cons,
    List.length_nil]

/-- C4: `check_fvg_after_tap` restricts the confirmation series to candles whose
timestamp is strictly greater than the tap timestamp, runs the FVG detector on
that restricted series with the tap's expected direction as filter and start
offset 2, and, when at least one FVG is found, the one returned is the head of
the detector's output and has the lowest index among all detected FVGs. -/
theorem check_fvg_after_tap_spec (fvg_df : List Candle) (tap_timestamp : ℤ)
    (expected_fvg_type : Option FvgType) :
    check_fvg_after_tap fvg_df tap_timestamp expected_fvg_type =
      (detect_fvg (fvg_df.filter (fun c => decide (tap_timestamp < c.timestamp)))
        expected_fvg_type 2).head? ∧
    ∀ fvg, check_fvg_after_tap fvg_df tap_timestamp expected_fvg_type = some fvg →
      ∀ g ∈ detect_fvg (fvg_df.filter (fun c => decide (tap_timestamp < c.timestamp)))
          expected_fvg_type 2, fvg.index ≤ g.index := by
  have h1 : check_fvg_after_tap fvg_df tap_timestamp expected_fvg_type =
      (detect_fvg (fvg_df.filter (fun c => decide (tap_timestamp < c.timestamp)))
        expected_fvg_type 2).head? := by
    unfold check_fvg_after_tap
    by_cases he : fvg_df.isEmpty
    · rw [if_pos he]
      rw [List.isEmpty_iff.1 he]
      rfl
    · rw [if_neg he]
      show (if (fvg_df.filter (fun c => decide (tap_timestamp < c.timestamp))).length < 4
          then none
          else
            if (detect_fvg (fvg_df.filter (fun c => decide (tap_timestamp < c.timestamp)))
                expected_fvg_type 2).isEmpty
            then none
            else (detect_fvg (fvg_df.filter (fun c => decide (tap_timestamp < c.timestamp)))
                expected_fvg_type 2).head?) = _
      by_cases h4 :
          (fvg_df.filter (fun c => decide (tap_timestamp < c.timestamp))).length < 4
      · rw [if_pos h4]
        unfold detect_fvg
        rw [if_pos h4]
        rfl
      · rw [if_neg h4]
        by_cases hnil :
            (detect_fvg (fvg_df.filter (fun c => decide (tap_timestamp < c.timestamp)))
              expected_fvg_type 2).isEmpty
        · rw [if_pos hnil, List.isEmpty_iff.1 hnil]
          rfl
        · rw [if_neg hnil]
  refine ⟨h1, ?_⟩
  intro fvg hf g hg
  rw [h1] at hf
  exact head?_pairwise_min (detect_fvg_pairwise_index _ _ _) hf g hg

/-- Witness for C4: on a confirmation series producing two bearish gaps after
the tap, the returned gap (index 2) is the earliest of the two (the other has
index 3). -/
theorem check_fvg_after_tap_spec_witness :
    (⟨.Bearish, 2, 3, 99, 105, 6, ⟨1, 107, 110, 105, 106⟩, ⟨2, 103, 104, 100, 101⟩,
        ⟨3, 98, 99, 95, 96⟩⟩ : FVG).index ≤
      (⟨.Bearish, 3, 4, 93, 100, 7, ⟨2, 103, 104, 100, 101⟩, ⟨3, 98, 99, 95, 96⟩,
        ⟨4, 92, 93, 90, 91⟩⟩ : FVG).index :=
  (check_fvg_after_tap_spec
      [⟨1, 107, 110, 105, 106⟩, ⟨2, 103, 104, 100, 101⟩, ⟨3, 98, 99, 95, 96⟩,
       ⟨4, 92, 93, 90, 91⟩, ⟨5, 91, 92, 90, 91⟩] 0 (some .Bearish)).2
    ⟨.Bearish, 2, 3, 99, 105, 6, ⟨1, 107, 110, 105, 106⟩, ⟨2, 103, 104, 100, 101⟩,
      ⟨3, 98, 99, 95, 96⟩⟩ (by with_unfolding_all decide)
    ⟨.Bearish, 3, 4, 93, 100, 7, ⟨2, 103, 104, 100, 101⟩, ⟨3, 98, 99, 95, 96⟩,
      ⟨4, 92, 93, 90, 91⟩⟩ (by with_unfolding_all decide)

/-- C6: `determine_fvg_type` returns Bearish iff level > close × 1.001, Bullish
iff level < close × 0.999, and no filter (None, either direction) otherwise; for
a positive close, a level at exactly close × 1.0015 expects Bearish, at
close × 0.9985 expects Bullish, and at exactly close expects either. -/
theorem determine_fvg_type_policy (price_level current_price : ℚ)
    (hcp : 0 ≤ current_price) :
    (determine_fvg_type price_level current_price = some .Bearish ↔
      price_level > current_price * (1001/1000)) ∧
    (determine_fvg_type price_level current_price = some .Bullish ↔
      price_level < current_price * (999/1000)) ∧
    (determine_fvg_type price_level current_price = none ↔
      price_level ≤ current_price * (1001/1000) ∧
        current_price * (999/1000) ≤ price_level) ∧
    (0 < current_price →
      determine_fvg_type (current_price * (10015/10000)) current_price =
          some .Bearish ∧
        determine_fvg_type (current_price * (9985/10000)) current_price =
          some .Bullish ∧
        determine_fvg_type current_price current_price = none) := by
  refine ⟨?_, ?_, ?_, ?_⟩
  · unfold determine_fvg_type
    split_ifs with h1 h2 <;> simp [h1]
  · unfold determine_fvg_type
    split_ifs with h1 h2
    · constructor
      · intro h
        injection h with h'
        cases h'
      · intro h
        exfalso
        linarith
    · simp [h2]
    · simp [h2]
  · unfold determine_fvg_type
    split_ifs with h1 h2 <;> simp
    · intro h
      linarith
    · intro _
      exact h2
    · exact ⟨not_lt.1 h1, not_lt.1 h2⟩
  · intro hcp
    refine ⟨?_, ?_, ?_⟩
    · unfold determine_fvg_type
      rw [if_pos (by linarith : current_price * (10015/10000) >
        current_price * (1001/1000))]
    · unfold determine_fvg_type
      rw [if_neg (by intro h; nlinarith : ¬ current_price * (9985/10000) >
          current_price * (1001/1000)),
        if_pos (by linarith : current_price * (9985/10000) <
          current_price * (999/1000))]
    · unfold determine_fvg_type
      rw [if_neg (by intro h; nlinarith : ¬ current_price >
          current_price * (1001/1000)),
        if_neg (by intro h; nlinarith : ¬ current_price <
          current_price * (999/1000))]

/-- Witness for C6: the boundary instances at a concrete close of 100. -/
theorem determine_fvg_type_policy_witness :
    (0:ℚ) < 100 ∧
    determine_fvg_type ((100:ℚ) * (10015/10000)) 100 = some .Bearish ∧
    determine_fvg_type ((100:ℚ) * (9985/10000)) 100 = some .Bullish ∧
    determine_fvg_type (100:ℚ) 100 = none :=
  ⟨by norm_num,
   ((determine_fvg_type_policy 0 100 (by norm_num)).2.2.2 (by norm_num)).1,
   ((determine_fvg_type_policy 0 100 (by norm_num)).2.2.2 (by norm_num)).2.1,
   ((determine_fvg_type_policy 0 100 (by norm_num)).2.2.2 (by norm_num)).2.2⟩

theorem findTap_index_lt {df_completed : List Candle} {price : ℚ} {idx : ℕ}
    {row : Candle} (h : findTap df_completed price = some (idx, row)) :
    idx < df_completed.length := by
  unfold findTap at h
  have hmem : (idx, row) ∈ df_completed.enum := List.mem_of_find?_eq_some h
  have hget : df_completed[idx]? = some row := List.mem_enum_iff_getElem?.1 hmem
  rcases List.getElem?_eq_some.1 hget with ⟨h', _⟩
  exact h'

theorem check_price_tap_fold_index (df_completed : List Candle)
    (current_price : ℚ) (price_levels : List PriceLevel) :
    ∀ acc : List TappedInfo × EngineState,
      (∀ t ∈ acc.1, t.candle_index < df_completed.length) →
      ∀ t ∈ (price_levels.foldl (checkPriceTapStep df_completed current_price)
          acc).1, t.candle_index < df_completed.length := by
  induction price_levels with
  | nil =>
    intro acc h
    simpa using h
  | cons level rest ih =>
    intro acc hacc
    rw [List.foldl_cons]
    apply ih
    intro t ht
    unfold checkPriceTapStep at ht
    split at ht
    · exact hacc t ht
    · split at ht
      · exact hacc t ht
      · cases hft : findTap df_completed level.price with
        | none =>
          rw [hft] at ht
          exact hacc t ht
        | some p =>
          obtain ⟨idx, row⟩ := p
          rw [hft] at ht
          dsimp at ht
          rcases List.mem_append.1 ht with h | h
          · exact hacc t h
          · rw [List.mem_singleton] at h
            subst h
            exact findTap_index_lt hft

/-- C2 (amended): for every candle series of length at least 2, tap detection
considers only completed candles — the result of `check_price_tap` is unchanged
when the final (provisional) candle is replaced, and every recorded tap points
at a candle strictly before the last one.  (A length-1 series is scanned whole,
so this needs the length ≥ 2 restriction; see the counterexample.) -/
theorem check_price_tap_completed_only (st : EngineState) (xs : List Candle)
    (c c' : Candle) (price_levels : List PriceLevel) (current_price : ℚ)
    (hxs : xs ≠ []) :
    check_price_tap st (xs ++ [c]) price_levels current_price =
      check_price_tap st (xs ++ [c']) price_levels current_price ∧
    ∀ t ∈ (check_price_tap st (xs ++ [c]) price_levels current_price).1,
      t.candle_index + 1 < (xs ++ [c]).length := by
  have hxlen : 0 < xs.length := List.length_pos.2 hxs
  have hgt : (xs ++ [c]).length > 1 := by
    simp only [List.length_append, List.length_cons, List.length_nil]
    omega
  have hgt' : (xs ++ [c']).length > 1 := by
    simp only [List.length_append, List.length_cons, List.length_nil]
    omega
  have hform : ∀ (d : Candle), (xs ++ [d]).length > 1 →
      check_price_tap st (xs ++ [d]) price_levels current_price =
        if (xs ++ [d]).isEmpty ∨ price_levels.isEmpty then ([], st)
        else price_levels.foldl (checkPriceTapStep xs current_price) ([], st) := by
    intro d hd
    unfold check_price_tap
    by_cases hpl : (xs ++ [d]).isEmpty ∨ price_levels.isEmpty
    · rw [if_pos hpl, if_pos hpl]
    · rw [if_neg hpl, if_neg hpl]
      show price_levels.foldl
          (checkPriceTapStep (if (xs ++ [d]).length > 1 then (xs ++ [d]).dropLast
            else xs ++ [d]) current_price) ([], st) = _
      rw [if_pos hd, List.dropLast_concat]
  constructor
  · rw [hform c hgt, hform c' hgt']
    have : ((xs ++ [c]).isEmpty ∨ price_levels.isEmpty) ↔
        ((xs ++ [c']).isEmpty ∨ price_levels.isEmpty) := by
      simp
    by_cases hpl : price_levels.isEmpty <;> simp [hpl]
  · intro t ht
    rw [hform c hgt] at ht
    by_cases hpl : (xs ++ [c]).isEmpty ∨ price_levels.isEmpty
    · rw [if_pos hpl] at ht
      simp at ht
    · rw [if_neg hpl] at ht
      have := check_price_tap_fold_index xs current_price price_levels ([], st)
        (by intro t ht; simp at ht) t ht
      simp only [List.length_append, List.length_cons, List.length_nil]
      omega

/-- Witness for C2: a concrete two-candle series where the tap is recorded on
the first (completed) candle, unchanged when the live candle is replaced. -/
theorem check_price_tap_completed_only_witness :
    ([⟨0, 100, 102, 94, 95⟩] : List Candle) ≠ [] ∧
    check_price_tap ⟨[]⟩ ([⟨0, 100, 102, 94, 95⟩] ++ [⟨10, 95, 96, 94, 95⟩])
        [⟨1, 101, true, false⟩] 95 =
      check_price_tap ⟨[]⟩ ([⟨0, 100, 102, 94, 95⟩] ++ [⟨9, 200, 201, 199, 200⟩])
        [⟨1, 101, true, false⟩] 95 :=
  ⟨by decide,
   (check_price_tap_completed_only ⟨[]⟩ [⟨0, 100, 102, 94, 95⟩]
      ⟨10, 95, 96, 94, 95⟩ ⟨9, 200, 201, 199, 200⟩ [⟨1, 101, true, false⟩] 95
      (by decide)).1⟩

/-- C2 counterexample: on a one-candle series the source keeps the whole frame
(`df.iloc[:-1] if len(df) > 1 else df`), so the sole candle — the last,
still-forming one — creates a TapState: the recorded tap index 0 equals
length − 1 = 0, the position of the provisional candle. -/
theorem check_price_tap_live_candle_counterexample :
    (check_price_tap ⟨[]⟩ [⟨10, 95, 96, 94, 95⟩] [⟨1, 95, true, false⟩]
        95).2.triggered_levels = [(1, ⟨0, 10, 95, none⟩)] ∧
      ([(⟨10, 95, 96, 94, 95⟩ : Candle)].length - 1 : ℕ) = 0 := by
  with_unfolding_all decide

/-- C1 fails on the code (code bug): in a single `check_fvg_signals` call on a
level whose tap and confirming gap are both first seen in that call, phase (a)
(newly tapped levels) emits a Signal and marks the level triggered in the
database only, then phase (b) (previously tapped levels) re-reads the stale
in-memory `triggered` flag (still false), finds the just-stored TapState and the
same gap, and emits a second Signal for the same (level, tap) pair — two
Signals without any reset in between.  Concretely: level 101, price series
[tap candle (low 94, high 102, close 95), live candle], confirmation series with
one bearish gap after the tap. -/
theorem check_fvg_signals_duplicate_in_one_call :
    ((check_fvg_signals ⟨[]⟩
        [⟨0, 100, 102, 94, 95⟩, ⟨10, 95, 96, 94, 95⟩]
        [⟨1, 107, 110, 105, 106⟩, ⟨2, 103, 104, 100, 101⟩, ⟨3, 98, 99, 95, 96⟩,
         ⟨4, 95, 96, 94, 95⟩]
        [⟨1, 101, true, false⟩] "BTCUSDT" "1h" "5m" none).1.map
        (fun s => (s.price_level, s.fvg_type))) =
      [(101, .Bearish), (101, .Bearish)] := by
  with_unfolding_all decide

theorem firesAlert_ok_decide {P : Prop} [Decidable P] {d : Option AlertDetails} :
    firesAlert (Except.ok (decide P, d)) ↔ P := by
  unfold firesAlert
  constructor
  · rintro ⟨d', hd'⟩
    rw [Except.ok.injEq, Prod.mk.injEq] at hd'
    exact of_decide_eq_true hd'.1
  · intro hP
    exact ⟨d, by rw [decide_eq_true hP]⟩

theorem check_alert_series_crossover (vals : List ℚ) (cond : String) (t : ℚ)
    (h2 : 2 ≤ vals.length) :
    check_alert_conditions (some (.series vals))
        ⟨some "crossover", some cond, some t, none, none⟩ =
      if cond = "crosses_above" then
        Except.ok (decide (vals.getD (vals.length - 2) 0 ≤ t ∧ t < vals.getLastD 0),
          some (.crossDetails (vals.getLastD 0) (vals.getD (vals.length - 2) 0) t))
      else if cond = "crosses_below" then
        Except.ok (decide (vals.getD (vals.length - 2) 0 ≥ t ∧ t > vals.getLastD 0),
          some (.crossDetails (vals.getLastD 0) (vals.getD (vals.length - 2) 0) t))
      else Except.ok (false, none) := by
  have hne : vals ≠ [] := by
    intro h
    subst h
    simp at h2
  obtain ⟨x, hx⟩ : ∃ x, vals.getLast? = some x := by
    cases h : vals.getLast? with
    | none => exact absurd (List.getLast?_eq_none_iff.mp h) hne
    | some x => exact ⟨x, rfl⟩
  have hlt : vals.length - 2 < vals.length := by omega
  have hy : vals[vals.length - 2]? = some vals[vals.length - 2] :=
    List.getElem?_eq_getElem hlt
  have hgD : vals.getD (vals.length - 2) 0 = vals[vals.length - 2] := by
    rw [List.getD_eq_getElem?_getD, hy]
    rfl
  have hgL : vals.getLastD 0 = x := by
    rw [List.getLastD_eq_getLast?, hx]
    rfl
  have h1 : vals.length > 1 := by omega
  unfold check_alert_conditions
  simp [IndicatorData.isEmpty, List.isEmpty_iff, hne, ilocLast, hx, ilocPrevOf,
    IndicatorData.rows, h1, hy, hgD, hgL, Except.bind, Bind.bind, Except.instMonad]

/-- C5: on a single-series indicator output with at least two samples, the
crossover alert fires CrossesAbove iff previous ≤ threshold < current (previous
side inclusive, current side strict) and CrossesBelow iff previous ≥ threshold >
current; in particular previous = threshold with current = threshold + ε fires
CrossesAbove, while previous = threshold − ε with current = threshold does
not. -/
theorem alert_crossover_boundary (vals : List ℚ) (t ε : ℚ)
    (h2 : 2 ≤ vals.length) (hε : 0 < ε) :
    (firesAlert (check_alert_conditions (some (.series vals))
        ⟨some "crossover", some "crosses_above", some t, none, none⟩) ↔
      vals.getD (vals.length - 2) 0 ≤ t ∧ t < vals.getLastD 0) ∧
    (firesAlert (check_alert_conditions (some (.series vals))
        ⟨some "crossover", some "crosses_below", some t, none, none⟩) ↔
      vals.getD (vals.length - 2) 0 ≥ t ∧ t > vals.getLastD 0) ∧
    firesAlert (check_alert_conditions (some (.series [t, t + ε]))
        ⟨some "crossover", some "crosses_above", some t, none, none⟩) ∧
    ¬ firesAlert (check_alert_conditions (some (.series [t - ε, t]))
        ⟨some "crossover", some "crosses_above", some t, none, none⟩) := by
  refine ⟨?_, ?_, ?_, ?_⟩
  · rw [check_alert_series_crossover vals "crosses_above" t h2]
    simp only [if_pos rfl]
    exact firesAlert_ok_decide
  · rw [check_alert_series_crossover vals "crosses_below" t h2]
    rw [if_neg (by decide), if_pos rfl]
    exact firesAlert_ok_decide
  · rw [check_alert_series_crossover [t, t + ε] "crosses_above" t (by simp)]
    simp only [if_pos rfl, if_true]
    rw [firesAlert_ok_decide]
    constructor
    · simp
    · simp
      linarith
  · rw [check_alert_series_crossover [t - ε, t] "crosses_above" t (by simp)]
    simp only [if_pos rfl, if_true]
    rw [firesAlert_ok_decide]
    intro h
    have := h.2
    simp at this

/-- Witness for C5: with threshold 0, previous 0 and current 1 the CrossesAbove
alert fires. -/
theorem alert_crossover_boundary_witness :
    firesAlert (check_alert_conditions (some (.series [(0:ℚ), 0 + 1]))
      ⟨some "crossover", some "crosses_above", some 0, none, none⟩) :=
  (alert_crossover_boundary [0, 1] 0 1 (by simp) (by norm_num)).2.2.1

/-- C9: a sandbox run whose code does not define a `calculate` function, or
whose code raises, fails with the single `Indicator execution error: <cause>`
value carrying the underlying cause, and `execute_indicator` produces no other
kind of failure: every run either returns a result or that one error shape.
(The outcome of Python `exec` on the source text is the oracle argument; the
wrapper is the code of src/indicator.py lines 150-199.) -/
theorem execute_indicator_error_contract (outcome : ExecOutcome)
    (df : List Candle) (params : List (String × ℚ)) :
    (∀ msg, outcome = .raises msg →
      execute_indicator outcome df params =
        Except.error ("Indicator execution error: " ++ msg)) ∧
    (outcome = .noCalculate →
      execute_indicator outcome df params =
        Except.error
          "Indicator execution error: Code must define a \x27calculate\x27 function") ∧
    ((∃ r, execute_indicator outcome df params = Except.ok r) ∨
      ∃ cause, execute_indicator outcome df params =
        Except.error ("Indicator execution error: " ++ cause)) := by
  refine ⟨?_, ?_, ?_⟩
  · intro msg h
    subst h
    rfl
  · intro h
    subst h
    rfl
  · cases outcome with
    | raises msg => exact Or.inr ⟨msg, rfl⟩
    | noCalculate =>
      refine Or.inr ⟨"Code must define a \x27calculate\x27 function", ?_⟩
      rfl
    | defines calculate =>
      cases h : calculate df params with
      | ok r =>
        refine Or.inl ⟨r, ?_⟩
        show (match calculate df params with
          | Except.ok r => Except.ok r
          | Except.error msg =>
            Except.error ("Indicator execution error: " ++ msg)) = Except.ok r
        rw [h]
      | error m =>
        refine Or.inr ⟨m, ?_⟩
        show (match calculate df params with
          | Except.ok r => Except.ok r
          | Except.error msg =>
            Except.error ("Indicator execution error: " ++ msg)) =
          Except.error ("Indicator execution error: " ++ m)
        rw [h]

/-- Witness for C9: a run that raises a concrete error message. -/
theorem execute_indicator_error_contract_witness :
    execute_indicator (.raises "NameError") [] [] =
      Except.error ("Indicator execution error: " ++ "NameError") :=
  (execute_indicator_error_contract (.raises "NameError") [] []).1 "NameError" rfl

theorem lookup_mem {l : List (String × List ℚ)} {k : String} {v : List ℚ}
    (h : l.lookup k = some v) : (k, v) ∈ l := by
  induction l with
  | nil => simp [List.lookup] at h
  | cons p rest ih =>
    rw [List.lookup] at h
    by_cases hk : (k == p.1) = true
    · rw [hk] at h
      simp only [Option.some.injEq] at h
      have hkeq : k = p.1 := eq_of_beq hk
      have : (k, v) = p := by
        rw [hkeq, ← h]
      rw [this]
      exact List.mem_cons_self p rest
    · rw [Bool.not_eq_true] at hk
      rw [hk] at h
      exact List.mem_cons_of_mem p (ih h)

theorem compareBranch_unrecognized (cols : List (String × List ℚ))
    (alert_config : AlertConfig) (condition : String) (rows : ℕ) (cur : ℚ)
    (prev : Option ℚ) (h1 : condition ≠ "crosses_above")
    (h2 : condition ≠ "crosses_below")
    (huni : ∀ p ∈ cols, p.2.length = rows) (hrows : rows ≠ 0) :
    compareBranch cols alert_config condition rows cur prev =
      Except.ok (false, none) := by
  unfold compareBranch
  cases alert_config.compare_with with
  | none => rfl
  | some cl =>
    dsimp only
    by_cases hcl : cl ≠ "" ∧ (cols.lookup cl).isSome = true
    · rw [if_pos hcl]
      obtain ⟨v, hv⟩ := Option.isSome_iff_exists.mp hcl.2
      have hcg : colGet cols cl = Except.ok v := by
        unfold colGet
        rw [hv]
      have hvne : v ≠ [] := by
        have hlenv := huni (cl, v) (lookup_mem hv)
        intro hnil
        subst hnil
        simp at hlenv
        exact hrows hlenv.symm
      obtain ⟨y, hy⟩ : ∃ y, v.getLast? = some y := by
        cases h : v.getLast? with
        | none => exact absurd (List.getLast?_eq_none_iff.mp h) hvne
        | some y => exact ⟨y, rfl⟩
      simp only [hcg, ilocLast, hy, Except.bind, Bind.bind, Except.instMonad]
      rw [if_neg (fun hcon => h1 hcon.1), if_neg (fun hcon => h2 hcon.1)]
    · rw [if_neg hcl]

/-- C10 (amended): for every non-empty indicator output and every alert
configuration whose type is not one of value/crossover/compare, or whose
condition is not a recognized condition for its type, `check_alert_conditions`
returns (False, None) without raising — provided that, when the output is a
multi-line frame, the selected main line names an existing column (the column
lookup happens before the type dispatch and raises a KeyError otherwise; see the
counterexample). -/
theorem check_alert_unrecognized (dat : IndicatorData)
    (alert_config : AlertConfig) (hu : unrecognizedConfig alert_config)
    (hs : safeFrameAccess dat alert_config) :
    check_alert_conditions (some dat) alert_config = Except.ok (false, none) := by
  unfold check_alert_conditions
  dsimp only
  by_cases hemp : dat.isEmpty = true
  · simp [hemp]
  · rw [if_neg hemp]
    cases dat with
    | series vals =>
      have hne : vals ≠ [] := by
        intro h
        subst h
        simp [IndicatorData.isEmpty] at hemp
      obtain ⟨x, hx⟩ : ∃ x, vals.getLast? = some x := by
        cases h : vals.getLast? with
        | none => exact absurd (List.getLast?_eq_none_iff.mp h) hne
        | some x => exact ⟨x, rfl⟩
      simp only [ilocLast, hx, Except.bind, Bind.bind, Except.instMonad]
      rcases hu with ⟨ha, hb, hc⟩ | ⟨ht, h1, h2, h3⟩ | ⟨ht, h1, h2⟩ | ⟨ht, h1, h2⟩
      · rw [if_neg ha, if_neg (fun hcon => hb hcon.1), if_neg hc]
      · rw [if_pos ht, if_neg h1, if_neg h2, if_neg h3]
      · rw [if_neg (by rw [ht]; decide)]
        by_cases hp : (ilocPrevOf (IndicatorData.series vals).rows vals).isSome = true
        · rw [if_pos ⟨ht, hp⟩, if_neg h1, if_neg h2]
        · rw [if_neg (fun hcon => hp hcon.2), if_neg (by rw [ht]; decide)]
      · rw [if_neg (by rw [ht]; decide),
          if_neg (fun hcon => absurd hcon.1 (by rw [ht]; decide)), if_pos ht]
    | frame cols =>
      obtain ⟨huni, hlook⟩ := hs
      have hemp' : (IndicatorData.frame cols).isEmpty = false :=
        Bool.not_eq_true _ |>.mp hemp
      have hrows : IndicatorData.rows (.frame cols) ≠ 0 := by
        unfold IndicatorData.isEmpty at hemp'
        rcases Bool.or_eq_false_iff.mp hemp' with ⟨-, hdec⟩
        intro hzero
        rw [hzero] at hdec
        simp at hdec
      obtain ⟨v, hv⟩ := Option.isSome_iff_exists.mp hlook
      have hmv : mainLineVals cols alert_config = Except.ok v := by
        unfold mainLineVals colGet
        dsimp only
        rw [hv]
      have hvne : v ≠ [] := by
        have hlenv := huni _ (lookup_mem hv)
        intro hnil
        subst hnil
        simp at hlenv
        exact hrows hlenv.symm
      obtain ⟨y, hy⟩ : ∃ y, v.getLast? = some y := by
        cases h : v.getLast? with
        | none => exact absurd (List.getLast?_eq_none_iff.mp h) hvne
        | some y => exact ⟨y, rfl⟩
      simp only [hmv, ilocLast, hy, Except.bind, Bind.bind, Except.instMonad]
      rcases hu with ⟨ha, hb, hc⟩ | ⟨ht, h1, h2, h3⟩ | ⟨ht, h1, h2⟩ | ⟨ht, h1, h2⟩
      · rw [if_neg ha, if_neg (fun hcon => hb hcon.1), if_neg hc]
      · rw [if_pos ht, if_neg h1, if_neg h2, if_neg h3]
      · rw [if_neg (by rw [ht]; decide)]
        by_cases hp : (ilocPrevOf (IndicatorData.frame cols).rows v).isSome = true
        · rw [if_pos ⟨ht, hp⟩, if_neg h1, if_neg h2]
        · rw [if_neg (fun hcon => hp hcon.2), if_neg (by rw [ht]; decide)]
      · rw [if_neg (by rw [ht]; decide),
          if_neg (fun hcon => absurd hcon.1 (by rw [ht]; decide)), if_pos ht]
        exact compareBranch_unrecognized cols alert_config _ _ _ _ h1 h2 huni hrows

/-- C10 counterexample: the main-line column access happens before the type
dispatch, so a two-row frame with one column "a" and an alert configuration
with unrecognized type "bogus" but line "b" raises a KeyError instead of
returning (False, None). -/
theorem check_alert_unrecognized_counterexample :
    check_alert_conditions (some (.frame [("a", [1, 2])]))
        ⟨some "bogus", none, none, some "b", none⟩ = Except.error "KeyError" := by
  with_unfolding_all rfl

/-- Witness for C10: a two-sample series with an unrecognized alert type. -/
theorem check_alert_unrecognized_witness :
    check_alert_conditions (some (.series [(1:ℚ), 2]))
        ⟨some "bogus", some "whatever", some 0, none, none⟩ =
      Except.ok (false, none) :=
  check_alert_unrecognized (.series [(1:ℚ), 2])
    ⟨some "bogus", some "whatever", some 0, none, none⟩
    (Or.inl ⟨by decide, by decide, by decide⟩) trivial

end QuantFlow
